import Mathlib

set_option maxRecDepth 4000

/-!
Shallow embedding of the recording-to-categorized-entries pipeline of the
time-tracking app: the Gemini categorization client (`src/services/gemini.ts`,
mirrored by `backend/server.js`), the entry-store creation path
(`src/database/entries.ts`), and the recording-orchestrator stop/cancel flow
(`src/hooks/useRecording.ts` on top of `src/hooks/useAudioRecording.ts`).

JavaScript conventions are modelled explicitly:
* `x || null` on strings: the empty string is falsy, so it becomes `null`;
* `x || 0` on integers agrees with `Option.getD 0`;
* `if (ref.current)` on a nullable number: both `null` and `0` take the
  else branch;
* `Math.round(d / 60)` for a nonnegative integer `d` is round-half-up,
  i.e. `(d + 30) / 60` in truncated natural division; for a negative
  difference `Math.round` yields a value `≤ 0` and `Math.max(1, -)` gives
  `1`, which coincides with the truncated-subtraction embedding below.
-/

/-- JS `s || null` for an optional string value: the empty string is falsy
and collapses to `null`. -/
def jsOrNull : Option String → Option String
  | none => none
  | some s => if s = "" then none else some s

/-- Embedding of JS `String.prototype.toLowerCase` (ASCII-faithful),
written over the character list so that it evaluates by kernel reduction. -/
def toLowerCase (s : String) : String := ⟨s.data.map Char.toLower⟩

/-- Embedding of JS `String.prototype.trim`: strip leading and trailing
whitespace, written over the character list so that it evaluates by kernel
reduction. -/
def jsTrim (s : String) : String :=
  ⟨((s.data.dropWhile Char.isWhitespace).reverse.dropWhile Char.isWhitespace).reverse⟩

/-- A user category row (`src/database/categories.ts`); the categorization
client only consults `id` and `name`. -/
structure Category where
  id : String
  name : String
  deriving DecidableEq

/-- `CategorizedActivity` from `src/services/gemini.ts`: one validated
activity returned by the categorization client.  Durations are JS numbers
returned by the model; the integers suffice for every claim considered. -/
structure CategorizedActivity where
  summary : String
  category : String
  tags : List String
  duration : Int
  deriving DecidableEq

/-- One activity object as parsed from the model's JSON, before the
validation/repair step: an absent field is `none` (for `summary`, JS `||`
also treats a present-but-empty string like an absent one); `tags := none`
models a non-array `tags` value and `duration := none` a non-numeric
`duration` value. -/
structure RawActivity where
  summary : Option String
  category : Option String
  tags : Option (List String)
  duration : Option Int
  deriving DecidableEq

/-- The two accepted shapes of the parsed model response
(`src/services/gemini.ts`, validation step): a proper `activities` array, or
the backward-compatible single flat activity object. -/
inductive ParsedResult
  | activitiesArr (acts : List RawActivity)
  | single (act : RawActivity)
  deriving DecidableEq

/-- `validateCategory` (identical in `src/services/gemini.ts` and
`backend/server.js`): `normalized = category?.toLowerCase() || 'other'`,
membership test against `validCategories`, then fallback to `'other'` when
present, else `validCategories[0] || 'other'`. -/
def validateCategory (category : Option String) (validCategories : List String) : String :=
  let normalized :=
    match category with
    | some c => if toLowerCase c = "" then "other" else toLowerCase c
    | none => "other"
  if validCategories.contains normalized then normalized
  else if validCategories.contains "other" then "other"
  else
    match validCategories with
    | [] => "other"
    | c0 :: _ => if c0 = "" then "other" else c0

/-- Validation/repair of one activity in the `activities`-array branch:
`summary || 'No summary available'`, category validation, non-array tags
coerced to `[]` and lowercased, non-numeric duration coerced to `0`. -/
def sanitizeActivity (categoryIds : List String) (a : RawActivity) : CategorizedActivity :=
  { summary := match jsOrNull a.summary with
      | some s => s
      | none => "No summary available"
    category := validateCategory a.category categoryIds
    tags := (a.tags.getD []).map toLowerCase
    duration := a.duration.getD 0 }

/-- The single-flat-object fallback branch: identical repair except that a
missing/non-numeric duration defaults to `defaultDurationMinutes`. -/
def sanitizeSingle (categoryIds : List String) (defaultDurationMinutes : Int)
    (a : RawActivity) : CategorizedActivity :=
  { summary := match jsOrNull a.summary with
      | some s => s
      | none => "No summary available"
    category := validateCategory a.category categoryIds
    tags := (a.tags.getD []).map toLowerCase
    duration := a.duration.getD defaultDurationMinutes }

/-- The validated activity list produced from a parsed model response. -/
def sanitizeParsed (p : ParsedResult) (categoryIds : List String)
    (defaultDurationMinutes : Int) : List CategorizedActivity :=
  match p with
  | .activitiesArr acts => acts.map (sanitizeActivity categoryIds)
  | .single a => [sanitizeSingle categoryIds defaultDurationMinutes a]

/-- The raw activity objects carried by a parsed model response (empty when
the response is a failure). -/
def rawActivities : Except String ParsedResult → List RawActivity
  | .ok (.activitiesArr l) => l
  | .ok (.single a) => [a]
  | .error _ => []

/-- The local single-activity result for an empty/whitespace transcript. -/
def noSpeechActivity : CategorizedActivity :=
  { summary := "No speech detected", category := "other", tags := [], duration := 0 }

/-- `categorizeTranscript` from `src/services/gemini.ts`.  The network
interaction is abstracted by `modelResponse`: `.error` stands for any
transport failure, non-ok status, missing response text or unextractable
JSON span (each of which the source turns into a thrown error), `.ok` for a
successfully extracted and parsed JSON object.  The returned Bool records
whether the external model was consulted.  As in the source, the API-key
lookup precedes the empty-transcript short-circuit, and the caller's
category id list is derived from the fetched categories. -/
def categorizeTranscript (apiKey : Option String) (transcript : String)
    (defaultDurationMinutes : Int) (categories : List Category)
    (modelResponse : Except String ParsedResult) :
    Except String (List CategorizedActivity × Bool) :=
  match apiKey with
  | none => .error "Gemini API key not configured. Add EXPO_PUBLIC_GEMINI_API_KEY to your .env file."
  | some _ =>
    if jsTrim transcript = "" then
      .ok ([noSpeechActivity], false)
    else
      match modelResponse with
      | .error e => .error e
      | .ok parsed => .ok (sanitizeParsed parsed (categories.map (·.id)) defaultDurationMinutes, true)

/-- `POST /categorize` of `backend/server.js`: same pipeline behind the thin
proxy.  `transcriptField := none` models a missing `transcript` body field
(`!transcript` also catches the empty string before `trim` is consulted).
The degenerate no-speech response is produced before any model object is
touched; the Bool records whether the model was consulted. -/
def categorizeEndpoint (transcriptField : Option String)
    (defaultDurationMinutes : Int) (categories : List Category)
    (modelResponse : Except String ParsedResult) :
    Except String (List CategorizedActivity × Bool) :=
  match transcriptField with
  | none => .ok ([noSpeechActivity], false)
  | some t =>
    if t = "" then .ok ([noSpeechActivity], false)
    else if jsTrim t = "" then .ok ([noSpeechActivity], false)
    else
      match modelResponse with
      | .error e => .error e
      | .ok parsed => .ok (sanitizeParsed parsed (categories.map (·.id)) defaultDurationMinutes, true)

/-- `TimeEntry` row from `src/database/entries.ts` (the generated `id` and
the `created_at`/`updated_at` bookkeeping are omitted: no claim mentions
them). -/
structure TimeEntry where
  recorded_at : Nat
  duration : Int
  transcript : Option String
  summary : Option String
  category_id : Option String
  tags : List String
  audio_uri : Option String
  processed : Bool
  deriving DecidableEq

/-- `CreateEntryInput` from `src/database/entries.ts`: every field optional. -/
structure CreateEntryInput where
  recorded_at : Option Nat
  duration : Option Int
  transcript : Option String
  summary : Option String
  category_id : Option String
  tags : Option (List String)
  audio_uri : Option String
  deriving DecidableEq

/-- `createEntry` from `src/database/entries.ts`: the row actually inserted.
`now` is the insertion clock reading, used when `input.recorded_at` is
absent or `0` (JS `input.recorded_at || now`); `input.duration || 0` agrees
with `getD 0` over the integers; the string fields go through `|| null`;
`processed = !!(input.summary && input.category_id)` is truthiness of both
fields. -/
def createEntry (now : Nat) (input : CreateEntryInput) : TimeEntry :=
  { recorded_at := match input.recorded_at with
      | some t => if t = 0 then now else t
      | none => now
    duration := input.duration.getD 0
    transcript := jsOrNull input.transcript
    summary := jsOrNull input.summary
    category_id := jsOrNull input.category_id
    tags := input.tags.getD []
    audio_uri := jsOrNull input.audio_uri
    processed := (jsOrNull input.summary).isSome && (jsOrNull input.category_id).isSome }

/-- `RecordingState` from `src/hooks/useRecording.ts`. -/
inductive RecordingState
  | idle
  | recording
  | transcribing
  | categorizing
  | error
  deriving DecidableEq

/-- `RecordingResult` from `src/hooks/useAudioRecording.ts`: the durable
audio file reference plus elapsed seconds.  `stopRecording()` builds the uri
as `<recordingsDir>recording_<id>.wav` via `saveRecording`, hence it is
never the empty string for a real capture. -/
structure RecordingResult where
  uri : String
  duration : Nat
  deriving DecidableEq

/-- The elapsed-time budget computed inside `stopRecord`
(`src/hooks/useRecording.ts`): the guard is JS truthiness on
`lastCheckInTimeRef.current`, so a stored `0` behaves like `null`;
`(d + 30) / 60` embeds `Math.round(d / 60)` for the nonnegative difference,
and for `currentTime < t0` both the source and the truncated subtraction
yield `1` after `Math.max(1, -)`. -/
def computeElapsedMinutes (lastCheckInTime : Option Nat)
    (notificationInterval : Nat) (currentTime : Nat) : Nat :=
  match lastCheckInTime with
  | some t0 => if t0 = 0 then notificationInterval else max 1 ((currentTime - t0 + 30) / 60)
  | none => notificationInterval

/-- All external inputs consumed by one `stopRecord` call: the audio-capture
stop result, the clock reading, the settings snapshot held in the hook's
refs, the transcription outcome, the categorization client's key and
(abstracted) model response, and a per-attempt entry-store write oracle
(`writeOk n` = the n-th `createEntry` call of this session succeeds; a
failed write throws, as any store call can). -/
structure StopInputs where
  recResult : Option RecordingResult
  currentTime : Nat
  lastCheckInTime : Option Nat
  notificationInterval : Nat
  transcription : Except String String
  apiKey : Option String
  categories : List Category
  modelResponse : Except String ParsedResult
  writeOk : Nat → Bool

/-- Terminal outcome of `stopRecord`/`cancelRecord`: the final state, the
entries actually persisted (in write order), the last-check-in value after
the call, and the user-facing message passed to `setError`, if any. -/
structure StopOutcome where
  state : RecordingState
  entries : List TimeEntry
  lastCheckInAfter : Option Nat
  errorMsg : Option String
  deriving DecidableEq

/-- The elapsed-time budget of a session, as computed by `stopRecord` from
its refs and clock. -/
def sessionBudget (inp : StopInputs) : Nat :=
  computeElapsedMinutes inp.lastCheckInTime inp.notificationInterval inp.currentTime

/-- The `createEntry` argument built for one categorized activity in the
success loop of `stopRecord`. -/
def activityEntryInput (recordedAt : Nat) (transcript : String) (uri : String)
    (a : CategorizedActivity) : CreateEntryInput :=
  { recorded_at := some recordedAt
    duration := some a.duration
    transcript := some transcript
    summary := some a.summary
    category_id := some a.category
    tags := some a.tags
    audio_uri := some uri }

/-- The fallback `createEntry` argument of the categorization `catch` in
`stopRecord`: transcript kept, summary/category absent. -/
def fallbackEntryInput (recordedAt : Nat) (elapsedMinutes : Nat)
    (transcript : String) (uri : String) : CreateEntryInput :=
  { recorded_at := some recordedAt
    duration := some (elapsedMinutes : Int)
    transcript := some transcript
    summary := none
    category_id := none
    tags := none
    audio_uri := some uri }

/-- The no-transcript `createEntry` argument of the transcription `catch` in
`stopRecord`: only timing and the audio reference survive. -/
def noTranscriptEntryInput (recordedAt : Nat) (elapsedMinutes : Nat)
    (uri : String) : CreateEntryInput :=
  { recorded_at := some recordedAt
    duration := some (elapsedMinutes : Int)
    transcript := none
    summary := none
    category_id := none
    tags := none
    audio_uri := some uri }

/-- The sequential `for ... await createEntry` loop of `stopRecord`: the
inputs are written one at a time; the first failing write throws and aborts
the loop with the earlier rows already persisted (there is no transaction).
Returns the persisted rows, the next write-attempt index, and whether the
loop ran to completion. -/
def runWrites (writeOk : Nat → Bool) (now : Nat) :
    List CreateEntryInput → Nat → List TimeEntry → List TimeEntry × Nat × Bool
  | [], i, acc => (acc, i, true)
  | input :: rest, i, acc =>
    if writeOk i then runWrites writeOk now rest (i + 1) (acc ++ [createEntry now input])
    else (acc, i + 1, false)

/-- `stopRecord` from `src/hooks/useRecording.ts`, as a function from the
session's external inputs to its terminal outcome.  A null audio-stop result
throws `'No recording data'` into the outer catch; a transcription failure
is recovered into a single no-transcript entry; a categorization failure
(or a `createEntry` failure inside the success loop, which the same `catch`
receives) is recovered into a single fallback entry; `lastCheckInTime` is
advanced only when execution reaches the settings update.  Settings writes
are assumed to succeed (no claim concerns a failing settings write). -/
def stopRecord (inp : StopInputs) : StopOutcome :=
  match inp.recResult with
  | none =>
    { state := .error
      entries := []
      lastCheckInAfter := inp.lastCheckInTime
      errorMsg := some "No recording data" }
  | some result =>
    match inp.transcription with
    | .error _ =>
      if inp.writeOk 0 then
        { state := .idle
          entries := [createEntry inp.currentTime
            (noTranscriptEntryInput inp.currentTime (sessionBudget inp) result.uri)]
          lastCheckInAfter := some inp.currentTime
          errorMsg := some "Transcription failed. Entry saved without transcript." }
      else
        { state := .error
          entries := []
          lastCheckInAfter := inp.lastCheckInTime
          errorMsg := some "Failed to stop recording" }
    | .ok transcript =>
      match categorizeTranscript inp.apiKey transcript (sessionBudget inp : Int)
          inp.categories inp.modelResponse with
      | .ok (activities, _) =>
        match runWrites inp.writeOk inp.currentTime
            (activities.map (activityEntryInput inp.currentTime transcript result.uri)) 0 [] with
        | (written, _, true) =>
          { state := .idle
            entries := written
            lastCheckInAfter := some inp.currentTime
            errorMsg := none }
        | (written, nextAttempt, false) =>
          if inp.writeOk nextAttempt then
            { state := .idle
              entries := written ++ [createEntry inp.currentTime
                (fallbackEntryInput inp.currentTime (sessionBudget inp) transcript result.uri)]
              lastCheckInAfter := some inp.currentTime
              errorMsg := some "Recording saved but categorization failed." }
          else
            { state := .error
              entries := written
              lastCheckInAfter := inp.lastCheckInTime
              errorMsg := some "Failed to stop recording" }
      | .error _ =>
        if inp.writeOk 0 then
          { state := .idle
            entries := [createEntry inp.currentTime
              (fallbackEntryInput inp.currentTime (sessionBudget inp) transcript result.uri)]
            lastCheckInAfter := some inp.currentTime
            errorMsg := some "Recording saved but categorization failed." }
        else
          { state := .error
            entries := []
            lastCheckInAfter := inp.lastCheckInTime
            errorMsg := some "Failed to stop recording" }

/-- `cancelRecord` from `src/hooks/useRecording.ts` combined with
`cancelRecording` from `src/hooks/useAudioRecording.ts` (which swallows its
own errors and returns immediately when nothing is in flight): always
returns to idle, persists nothing, clears the error and leaves the
last-check-in untouched. -/
def cancelRecord (lastCheckInTime : Option Nat) : StopOutcome :=
  { state := .idle
    entries := []
    lastCheckInAfter := lastCheckInTime
    errorMsg := none }

/-! ## Helper lemmas about the write loop and the sanitizer -/

lemma runWrites_mem (writeOk : Nat → Bool) (now : Nat) :
    ∀ (inputs : List CreateEntryInput) (i : Nat) (acc : List TimeEntry) (e : TimeEntry),
      e ∈ (runWrites writeOk now inputs i acc).1 →
      e ∈ acc ∨ ∃ input ∈ inputs, e = createEntry now input
  | [], _, acc, e, h => by
    simp only [runWrites] at h
    exact Or.inl h
  | input :: rest, i, acc, e, h => by
    simp only [runWrites] at h
    by_cases hw : writeOk i
    · rw [if_pos hw] at h
      rcases runWrites_mem writeOk now rest (i + 1) (acc ++ [createEntry now input]) e h with
        h1 | ⟨input2, hmem, he⟩
      · rcases List.mem_append.mp h1 with h3 | h4
        · exact Or.inl h3
        · exact Or.inr ⟨input, List.mem_cons_self _ _, by simpa using h4⟩
      · exact Or.inr ⟨input2, List.mem_cons_of_mem _ hmem, he⟩
    · rw [if_neg hw] at h
      exact Or.inl h

lemma runWrites_fail (writeOk : Nat → Bool) (now : Nat) :
    ∀ (inputs : List CreateEntryInput) (k i : Nat) (acc : List TimeEntry),
      k < inputs.length →
      (∀ j, j < k → writeOk (i + j) = true) →
      writeOk (i + k) = false →
      runWrites writeOk now inputs i acc =
        (acc ++ (inputs.take k).map (createEntry now), i + k + 1, false)
  | [], k, _, _, hk, _, _ => absurd hk (by simp)
  | input :: rest, k, i, acc, hk, hpre, hfail => by
    cases k with
    | zero =>
      have h0 : writeOk i = false := by simpa using hfail
      simp [runWrites, h0]
    | succ k2 =>
      have h0 : writeOk i = true := by simpa using hpre 0 (Nat.succ_pos _)
      have ih := runWrites_fail writeOk now rest k2 (i + 1) (acc ++ [createEntry now input])
        (by simpa using Nat.lt_of_succ_lt_succ hk)
        (fun j hj => by
          have := hpre (j + 1) (Nat.succ_lt_succ hj)
          simpa [Nat.add_assoc, Nat.add_comm 1 j] using this)
        (by
          have : i + (k2 + 1) = i + 1 + k2 := by omega
          rw [← this]; exact hfail)
      simp only [runWrites, h0, if_true, ih, List.take_succ_cons, List.map_cons]
      have harith : i + 1 + k2 + 1 = i + (k2 + 1) + 1 := by omega
      rw [List.append_assoc, List.singleton_append, harith]

lemma sanitizeActivity_duration_nonneg (ids : List String) (a : RawActivity)
    (h : ∀ d, a.duration = some d → 0 ≤ d) :
    0 ≤ (sanitizeActivity ids a).duration := by
  cases hd : a.duration with
  | none => simp [sanitizeActivity, hd]
  | some d => simpa [sanitizeActivity, hd] using h d hd

lemma sanitizeSingle_duration_nonneg (ids : List String) (dflt : Int) (a : RawActivity)
    (hdflt : 0 ≤ dflt) (h : ∀ d, a.duration = some d → 0 ≤ d) :
    0 ≤ (sanitizeSingle ids dflt a).duration := by
  cases hd : a.duration with
  | none => simpa [sanitizeSingle, hd] using hdflt
  | some d => simpa [sanitizeSingle, hd] using h d hd

/-! ## Claim C1 — elapsed-time budget computation -/

/-- Claim C1, counterexample to the claim as stated: with a stored
last-check-in of `0` a prior `lastCheckInTime` exists (`t0 = 0`, stop time
`t1 = 300`), yet the code returns the notification interval (30) instead of
`max(1, round((t1 - t0) / 60)) = 5`, because the guard is JS truthiness and
`0` is falsy. -/
theorem claim1_counterexample :
    computeElapsedMinutes (some 0) 30 300 = 30 ∧
    max 1 ((300 - 0 + 30) / 60) = 5 ∧ (30 : Nat) ≠ 5 := by
  refine ⟨rfl, ?_, ?_⟩ <;> decide

/-- Claim C1 as amended: when a prior NONZERO `lastCheckInTime` `t0` exists
and the recording stops at `t1 > t0`, the budget passed to categorization is
`max(1, round((t1 - t0) / 60))`; when `lastCheckInTime` is null — or `0`,
which the JS truthiness guard conflates with null — the budget is the
configured notification interval. -/
theorem claim1_theorem (t0 t1 interval : Nat) (h0 : t0 ≠ 0) (_h1 : t0 < t1) :
    computeElapsedMinutes (some t0) interval t1 = max 1 ((t1 - t0 + 30) / 60) ∧
    computeElapsedMinutes none interval t1 = interval ∧
    computeElapsedMinutes (some 0) interval t1 = interval := by
  refine ⟨?_, rfl, rfl⟩
  simp [computeElapsedMinutes, h0]

/-- Witness for C1 at `t0 = 60`, `t1 = 330`, interval 30: the budget is
`max 1 (round(270 / 60)) = 5` with a prior nonzero check-in, and 30 in the
null and zero cases. -/
theorem claim1_witness :
    (60 : Nat) ≠ 0 ∧ (60 : Nat) < 330 ∧
    (computeElapsedMinutes (some 60) 30 330 = max 1 ((330 - 60 + 30) / 60) ∧
     computeElapsedMinutes none 30 330 = 30 ∧
     computeElapsedMinutes (some 0) 30 330 = 30) :=
  ⟨by decide, by decide, claim1_theorem 60 330 30 (by decide) (by decide)⟩

/-! ## Claim C3 — empty/whitespace transcript short-circuit -/

/-- Claim C3, counterexample to the claim as stated: with no API key
configured, calling the client's categorize with an empty transcript does
not return the single no-speech activity — the missing-key check precedes
the empty-transcript short-circuit and the call fails. -/
theorem claim3_counterexample :
    categorizeTranscript none "" 30 [] (.ok (.activitiesArr [])) =
      .error "Gemini API key not configured. Add EXPO_PUBLIC_GEMINI_API_KEY to your .env file." ∧
    categorizeTranscript none "" 30 [] (.ok (.activitiesArr [])) ≠
      .ok ([noSpeechActivity], false) :=
  ⟨rfl, fun h => Except.noConfusion h⟩

/-- Claim C3 as amended: provided an API key is configured, the client's
categorize on an empty or whitespace-only transcript returns exactly one
activity — the no-speech activity — for every budget, category set and model
behaviour, without consulting the external model (Bool component `false`);
the server's `/categorize` endpoint short-circuits this way unconditionally,
for both a missing and a whitespace-only transcript field. -/
theorem claim3_theorem (k transcript : String) (d : Int) (cats : List Category)
    (resp : Except String ParsedResult) (hws : jsTrim transcript = "") :
    categorizeTranscript (some k) transcript d cats resp = .ok ([noSpeechActivity], false) ∧
    categorizeEndpoint (some transcript) d cats resp = .ok ([noSpeechActivity], false) ∧
    categorizeEndpoint none d cats resp = .ok ([noSpeechActivity], false) := by
  refine ⟨?_, ?_, rfl⟩
  · simp [categorizeTranscript, hws]
  · by_cases he : transcript = "" <;> simp [categorizeEndpoint, he, hws]

/-- Witness for C3 on the whitespace transcript `"  "` with a configured
key, a failing model and one category. -/
theorem claim3_witness :
    (jsTrim "  " = "") ∧
    (categorizeTranscript (some "key") "  " 30 [⟨"work", "Work"⟩] (.error "network down") =
        .ok ([noSpeechActivity], false) ∧
      categorizeEndpoint (some "  ") 30 [⟨"work", "Work"⟩] (.error "network down") =
        .ok ([noSpeechActivity], false) ∧
      categorizeEndpoint none 30 [⟨"work", "Work"⟩] (.error "network down") =
        .ok ([noSpeechActivity], false)) :=
  ⟨by decide, claim3_theorem "key" "  " 30 [⟨"work", "Work"⟩] (.error "network down") (by decide)⟩

/-! ## Claim C7 — category validation fallback -/

/-- Claim C7, counterexample to the claim as stated: the returned category
string `"Work"` is not in the caller's id set `["work", "other"]` and
`"other"` is a valid id, yet `validateCategory` returns `"work"` — the
lowercased input — rather than `"other"`: membership is tested only after
lowercasing. -/
theorem claim7_counterexample :
    (["work", "other"].contains "Work" = false) ∧
    (["work", "other"].contains "other" = true) ∧
    validateCategory (some "Work") ["work", "other"] = "work" ∧
    validateCategory (some "Work") ["work", "other"] ≠ "other" := by
  refine ⟨by decide, by decide, by decide, by decide⟩

/-- Claim C7 as amended: for every returned category string whose LOWERCASED
form is not in the caller's category id set, the validated category is
`"other"` when `"other"` is among the ids, and otherwise the first valid
category id, provided the id list is nonempty with a nonempty head (with an
empty or `""`-headed id list the literal `"other"` is returned instead). -/
theorem claim7_theorem (c : String) (ids : List String)
    (h : ids.contains (toLowerCase c) = false) :
    (ids.contains "other" = true → validateCategory (some c) ids = "other") ∧
    (ids.contains "other" = false → ∀ c0 rest, ids = c0 :: rest → c0 ≠ "" →
      validateCategory (some c) ids = c0) := by
  constructor
  · intro ho
    have ho2 : "other" ∈ ids := by simpa using ho
    by_cases he : toLowerCase c = ""
    · simp [validateCategory, he, ho2]
    · have h2 : toLowerCase c ∉ ids := by simpa using h
      simp [validateCategory, he, h2, ho2]
  · intro ho c0 rest hids hc0
    subst hids
    have ho2 : ¬("other" = c0 ∨ "other" ∈ rest) := by
      simpa [List.mem_cons] using ho
    have ho3 := not_or.mp ho2
    by_cases he : toLowerCase c = ""
    · simp [validateCategory, he, ho3.1, ho3.2, hc0]
    · have h2 : ¬(toLowerCase c = c0 ∨ toLowerCase c ∈ rest) := by
        simpa [List.mem_cons] using h
      have h3 := not_or.mp h2
      simp [validateCategory, he, h3.1, h3.2, ho3.1, ho3.2, hc0]

/-- Witness for C7: `"Meetings"` lowercases to `"meetings"`, which is not in
`["work", "other"]`; since `"other"` is a valid id the fallback applies. -/
theorem claim7_witness :
    (["work", "other"].contains (toLowerCase "Meetings") = false) ∧
    ((["work", "other"].contains "other" = true →
        validateCategory (some "Meetings") ["work", "other"] = "other") ∧
      (["work", "other"].contains "other" = false →
        ∀ c0 rest, ["work", "other"] = c0 :: rest → c0 ≠ "" →
          validateCategory (some "Meetings") ["work", "other"] = c0)) :=
  ⟨by decide, claim7_theorem "Meetings" ["work", "other"] (by decide)⟩

/-! ## Claim C10 — lowercase normalization before the membership test -/

/-- Claim C10, counterexample to the claim as stated: the empty string
lowercases to itself and is a member of the id list `[""]`, yet
`validateCategory` returns `"other"`, not `""` — the empty string is falsy
in JS, so `category?.toLowerCase() || 'other'` normalizes it to `"other"`
before the membership test. -/
theorem claim10_counterexample :
    toLowerCase "" = "" ∧ ([""].contains "" = true) ∧
    validateCategory (some "") [""] = "other" ∧
    validateCategory (some "") [""] ≠ "" := by
  refine ⟨rfl, by decide, by decide, by decide⟩

/-- Claim C10 as amended: for every category string whose lowercasing is
NONEMPTY and a member of the valid id list, the result is that lowercased
string — a model-returned category differing from a valid id only in letter
case is accepted and normalized rather than replaced by the fallback.  (An
empty category string is falsy in JS and is normalized to `"other"`
instead.) -/
theorem claim10_theorem (c : String) (ids : List String)
    (hne : toLowerCase c ≠ "") (hm : ids.contains (toLowerCase c) = true) :
    validateCategory (some c) ids = toLowerCase c := by
  have hm2 : toLowerCase c ∈ ids := by simpa using hm
  simp [validateCategory, hne, hm2]

/-- Witness for C10: `"Work"` is accepted against `["work", "other"]` and
normalized to `"work"`. -/
theorem claim10_witness :
    (toLowerCase "Work" ≠ "") ∧ (["work", "other"].contains (toLowerCase "Work") = true) ∧
    validateCategory (some "Work") ["work", "other"] = toLowerCase "Work" :=
  ⟨by decide, by decide, claim10_theorem "Work" ["work", "other"] (by decide) (by decide)⟩

/-! ## Claim C2 — at least one entry per stopped recording -/

/-- A stopped recording whose transcription succeeds and whose categorization
succeeds with an EMPTY activities array; every store write succeeds. -/
def claim2Inputs : StopInputs :=
  { recResult := some ⟨"recordings/recording_a.wav", 42⟩
    currentTime := 1000
    lastCheckInTime := some 700
    notificationInterval := 30
    transcription := .ok "worked on the project"
    apiKey := some "key"
    categories := [⟨"work", "Work"⟩, ⟨"other", "Other"⟩]
    modelResponse := .ok (.activitiesArr [])
    writeOk := fun _ => true }

/-- Claim C2, evaluation at the failing input: when the model's successful
response carries an empty `activities` array, the success loop persists ZERO
entries, yet the session ends idle with `lastCheckInTime` advanced and no
error — violating the invariant that a stopped recording persists at least
one entry. -/
theorem claim2_theorem :
    (stopRecord claim2Inputs).entries = [] ∧
    (stopRecord claim2Inputs).state = .idle ∧
    (stopRecord claim2Inputs).lastCheckInAfter = some 1000 ∧
    (stopRecord claim2Inputs).errorMsg = none :=
  ⟨rfl, rfl, rfl, rfl⟩

/-! ## Claim C9 — stop/cancel with nothing in flight -/

/-- A `stopRecord` call with nothing in flight: the audio layer's
`stopRecording()` returned null. -/
def claim9Inputs : StopInputs :=
  { recResult := none
    currentTime := 1000
    lastCheckInTime := some 700
    notificationInterval := 30
    transcription := .error "unused"
    apiKey := none
    categories := []
    modelResponse := .error "unused"
    writeOk := fun _ => true }

/-- Claim C9, counterexample to the claim as stated: stopping with nothing
in flight IS surfaced as an error — the orchestrator throws
`'No recording data'` and lands in the error state (though indeed no entry
is persisted and `lastCheckInTime` is unchanged). -/
theorem claim9_counterexample :
    (stopRecord claim9Inputs).state = .error ∧
    (stopRecord claim9Inputs).errorMsg = some "No recording data" ∧
    (stopRecord claim9Inputs).entries = [] ∧
    (stopRecord claim9Inputs).lastCheckInAfter = some 700 :=
  ⟨rfl, rfl, rfl, rfl⟩

/-- Claim C9 as amended: cancel with nothing in flight is a true no-op (back
to idle, nothing persisted, `lastCheckInTime` unchanged, error cleared);
stop with nothing in flight likewise persists nothing and leaves
`lastCheckInTime` unchanged, but transitions the orchestrator to the error
state with message `'No recording data'`. -/
theorem claim9_theorem (ct : Nat) (lc : Option Nat) (ni : Nat)
    (tr : Except String String) (ak : Option String) (cats : List Category)
    (mr : Except String ParsedResult) (w : Nat → Bool) :
    ((stopRecord ⟨none, ct, lc, ni, tr, ak, cats, mr, w⟩).entries = [] ∧
     (stopRecord ⟨none, ct, lc, ni, tr, ak, cats, mr, w⟩).lastCheckInAfter = lc ∧
     (stopRecord ⟨none, ct, lc, ni, tr, ak, cats, mr, w⟩).state = .error ∧
     (stopRecord ⟨none, ct, lc, ni, tr, ak, cats, mr, w⟩).errorMsg = some "No recording data") ∧
    ((cancelRecord lc).state = .idle ∧ (cancelRecord lc).entries = [] ∧
     (cancelRecord lc).lastCheckInAfter = lc ∧ (cancelRecord lc).errorMsg = none) :=
  ⟨⟨rfl, rfl, rfl, rfl⟩, ⟨rfl, rfl, rfl, rfl⟩⟩

/-! ## Claim C6 — transcription-failure fallback -/

/-- Claim C6 (confirmed): on transcription failure after a successful
capture — whose saved uri is nonempty, as `saveRecording` always builds it —
and with the store write succeeding, exactly one entry is persisted with
duration equal to the elapsed-time budget, non-null `audioUri`, null
`transcript`/`summary`/`categoryId`, recorded at the stop time, and
`lastCheckInTime` advances to that same `recordedAt` while the session
returns to idle. -/
theorem claim6_theorem (inp : StopInputs) (r : RecordingResult) (msg : String)
    (hr : inp.recResult = some r) (hu : r.uri ≠ "")
    (ht : inp.transcription = .error msg) (hw : inp.writeOk 0 = true) :
    ∃ e, (stopRecord inp).entries = [e] ∧
      e.duration = (sessionBudget inp : Int) ∧
      e.audio_uri = some r.uri ∧
      e.transcript = none ∧ e.summary = none ∧ e.category_id = none ∧
      e.recorded_at = inp.currentTime ∧
      (stopRecord inp).lastCheckInAfter = some inp.currentTime ∧
      (stopRecord inp).state = .idle := by
  refine ⟨createEntry inp.currentTime
    (noTranscriptEntryInput inp.currentTime (sessionBudget inp) r.uri), ?_, ?_, ?_, ?_, ?_, ?_, ?_, ?_, ?_⟩
  · simp [stopRecord, hr, ht, hw]
  · simp [createEntry, noTranscriptEntryInput]
  · simp [createEntry, noTranscriptEntryInput, jsOrNull, hu]
  · simp [createEntry, noTranscriptEntryInput, jsOrNull]
  · simp [createEntry, noTranscriptEntryInput, jsOrNull]
  · simp [createEntry, noTranscriptEntryInput, jsOrNull]
  · simp [createEntry, noTranscriptEntryInput]
  · simp [stopRecord, hr, ht, hw]
  · simp [stopRecord, hr, ht, hw]

/-- Concrete transcription-failure session for the C6 witness. -/
def claim6Inputs : StopInputs :=
  { recResult := some ⟨"recordings/recording_b.wav", 42⟩
    currentTime := 1000
    lastCheckInTime := some 700
    notificationInterval := 30
    transcription := .error "speech engine unavailable"
    apiKey := some "key"
    categories := []
    modelResponse := .error "unused"
    writeOk := fun _ => true }

/-- Witness for C6 at a concrete transcription-failure session. -/
theorem claim6_witness :
    (claim6Inputs.recResult = some ⟨"recordings/recording_b.wav", 42⟩ ∧
      "recordings/recording_b.wav" ≠ "" ∧
      claim6Inputs.transcription = .error "speech engine unavailable" ∧
      claim6Inputs.writeOk 0 = true) ∧
    (∃ e, (stopRecord claim6Inputs).entries = [e] ∧
      e.duration = (sessionBudget claim6Inputs : Int) ∧
      e.audio_uri = some "recordings/recording_b.wav" ∧
      e.transcript = none ∧ e.summary = none ∧ e.category_id = none ∧
      e.recorded_at = claim6Inputs.currentTime ∧
      (stopRecord claim6Inputs).lastCheckInAfter = some claim6Inputs.currentTime ∧
      (stopRecord claim6Inputs).state = .idle) :=
  ⟨⟨rfl, by decide, rfl, rfl⟩,
    claim6_theorem claim6Inputs ⟨"recordings/recording_b.wav", 42⟩
      "speech engine unavailable" rfl (by decide) rfl rfl⟩

/-! ## Claim C5 — categorization-failure fallback -/

/-- A session whose transcription succeeds with the EMPTY transcript (the
explicit no-speech outcome of the speech engine) while no API key is
configured, so categorization fails with the missing-key error. -/
def claim5Inputs : StopInputs :=
  { recResult := some ⟨"recordings/recording_c.wav", 8⟩
    currentTime := 1000
    lastCheckInTime := some 700
    notificationInterval := 30
    transcription := .ok ""
    apiKey := none
    categories := []
    modelResponse := .error "unused"
    writeOk := fun _ => true }

/-- Claim C5, counterexample to the claim as stated: on this categorization
failure (missing API key) after a successful transcription that produced the
empty transcript, the single fallback entry does NOT carry the transcript:
`createEntry` stores `transcript || null`, and the empty string is falsy. -/
theorem claim5_counterexample :
    (stopRecord claim5Inputs).entries.map (fun e => e.transcript) = [none] ∧
    (stopRecord claim5Inputs).entries.map (fun e => e.transcript) ≠ [some ""] ∧
    (stopRecord claim5Inputs).state = .idle ∧
    (stopRecord claim5Inputs).lastCheckInAfter = some 1000 :=
  ⟨rfl, by decide, rfl, rfl⟩

/-- Claim C5 as amended: on categorization failure (the missing-API-key case
included — the orchestrator catches it exactly like any categorization
failure) after a successful transcription, exactly one fallback entry is
persisted with duration equal to the elapsed-time budget, null summary and
categoryId, carrying the transcript whenever the transcript is nonempty (an
empty transcript is persisted as null by `createEntry`); the session still
ends idle with `lastCheckInTime` advanced to the stop time. -/
theorem claim5_theorem (inp : StopInputs) (r : RecordingResult) (t msg : String)
    (hr : inp.recResult = some r) (ht : inp.transcription = .ok t)
    (hc : categorizeTranscript inp.apiKey t (sessionBudget inp : Int)
      inp.categories inp.modelResponse = .error msg)
    (hw : inp.writeOk 0 = true) :
    ∃ e, (stopRecord inp).entries = [e] ∧
      e.duration = (sessionBudget inp : Int) ∧
      e.summary = none ∧ e.category_id = none ∧
      (t ≠ "" → e.transcript = some t) ∧
      (stopRecord inp).state = .idle ∧
      (stopRecord inp).lastCheckInAfter = some inp.currentTime := by
  refine ⟨createEntry inp.currentTime
    (fallbackEntryInput inp.currentTime (sessionBudget inp) t r.uri), ?_, ?_, ?_, ?_, ?_, ?_, ?_⟩
  · simp [stopRecord, hr, ht, hc, hw]
  · simp [createEntry, fallbackEntryInput]
  · simp [createEntry, fallbackEntryInput, jsOrNull]
  · simp [createEntry, fallbackEntryInput, jsOrNull]
  · intro hne
    simp [createEntry, fallbackEntryInput, jsOrNull, hne]
  · simp [stopRecord, hr, ht, hc, hw]
  · simp [stopRecord, hr, ht, hc, hw]

/-- Concrete categorization-failure session (missing API key, nonempty
transcript) for the C5 witness. -/
def claim5WitnessInputs : StopInputs :=
  { recResult := some ⟨"recordings/recording_f.wav", 8⟩
    currentTime := 1000
    lastCheckInTime := some 700
    notificationInterval := 30
    transcription := .ok "did some gardening"
    apiKey := none
    categories := []
    modelResponse := .ok (.activitiesArr [])
    writeOk := fun _ => true }

/-- Witness for C5 at a concrete missing-API-key session. -/
theorem claim5_witness :
    (claim5WitnessInputs.recResult = some ⟨"recordings/recording_f.wav", 8⟩ ∧
      claim5WitnessInputs.transcription = .ok "did some gardening" ∧
      categorizeTranscript claim5WitnessInputs.apiKey "did some gardening"
          (sessionBudget claim5WitnessInputs : Int) claim5WitnessInputs.categories
          claim5WitnessInputs.modelResponse =
        .error "Gemini API key not configured. Add EXPO_PUBLIC_GEMINI_API_KEY to your .env file." ∧
      claim5WitnessInputs.writeOk 0 = true) ∧
    (∃ e, (stopRecord claim5WitnessInputs).entries = [e] ∧
      e.duration = (sessionBudget claim5WitnessInputs : Int) ∧
      e.summary = none ∧ e.category_id = none ∧
      ("did some gardening" ≠ "" → e.transcript = some "did some gardening") ∧
      (stopRecord claim5WitnessInputs).state = .idle ∧
      (stopRecord claim5WitnessInputs).lastCheckInAfter = some claim5WitnessInputs.currentTime) :=
  ⟨⟨rfl, rfl, rfl, rfl⟩,
    claim5_theorem claim5WitnessInputs ⟨"recordings/recording_f.wav", 8⟩
      "did some gardening"
      "Gemini API key not configured. Add EXPO_PUBLIC_GEMINI_API_KEY to your .env file."
      rfl rfl rfl rfl⟩

/-! ## Claim C4 — the multi-entry write is not atomic -/

/-- Transcript of the two-activity session used to exercise the write loop. -/
def claim4Transcript : String := "I made coffee for five minutes then worked on the project"

/-- The raw model response for the two-activity session. -/
def claim4Raw : List RawActivity :=
  [⟨some "Made coffee", some "personal", some ["coffee"], some 5⟩,
   ⟨some "Worked on the project", some "work", some ["project"], some 25⟩]

/-- The validated activities of the two-activity session. -/
def claim4Acts : List CategorizedActivity :=
  [⟨"Made coffee", "personal", ["coffee"], 5⟩,
   ⟨"Worked on the project", "work", ["project"], 25⟩]

/-- The two-activity session with every store write succeeding. -/
def claim4AllOk : StopInputs :=
  { recResult := some ⟨"recordings/recording_e.wav", 22⟩
    currentTime := 1000
    lastCheckInTime := none
    notificationInterval := 30
    transcription := .ok claim4Transcript
    apiKey := some "key"
    categories := [⟨"work", "Work"⟩, ⟨"personal", "Personal"⟩, ⟨"other", "Other"⟩]
    modelResponse := .ok (.activitiesArr claim4Raw)
    writeOk := fun _ => true }

/-- The same session, but only the very first store write succeeds: the
write of the second entry fails, and so does the fallback write attempted by
the catch handler. -/
def claim4FailSecond : StopInputs :=
  { claim4AllOk with writeOk := fun i => i == 0 }

/-- Claim C4, counterexample to the claim as stated: with every write
succeeding this recording persists its two entries; with the second entry
write failing (and the fallback write failing too) the final persisted
result is exactly the first of those two entries — a proper non-empty subset
of the batch. -/
theorem claim4_counterexample :
    (stopRecord claim4AllOk).entries.length = 2 ∧
    (stopRecord claim4FailSecond).entries = (stopRecord claim4AllOk).entries.take 1 ∧
    (stopRecord claim4FailSecond).entries.length = 1 ∧
    (stopRecord claim4FailSecond).state = .error :=
  ⟨rfl, rfl, rfl, rfl⟩

/-- Claim C4 as amended: the multi-entry write of a categorization success
is a sequential, non-atomic loop.  If the first `k` entry writes succeed and
the write of entry `k` fails (`k < N`), the failure is caught by the same
handler as a categorization failure: the final persisted result is exactly
the first `k` entries, followed by one fallback entry when the fallback
write (attempt `k + 1`) succeeds — in which case the session ends idle with
`lastCheckInTime` advanced — and by nothing otherwise, the session then
ending in the error state with `lastCheckInTime` unchanged but the `k`
entries still persisted. -/
theorem claim4_theorem (inp : StopInputs) (r : RecordingResult) (t : String)
    (acts : List CategorizedActivity) (b : Bool) (k : Nat)
    (hr : inp.recResult = some r) (ht : inp.transcription = .ok t)
    (hc : categorizeTranscript inp.apiKey t (sessionBudget inp : Int)
      inp.categories inp.modelResponse = .ok (acts, b))
    (hk : k < acts.length)
    (hpre : ∀ j, j < k → inp.writeOk j = true)
    (hfail : inp.writeOk k = false) :
    (stopRecord inp).entries =
      (acts.take k).map (fun a => createEntry inp.currentTime
        (activityEntryInput inp.currentTime t r.uri a)) ++
        (if inp.writeOk (k + 1) then
          [createEntry inp.currentTime
            (fallbackEntryInput inp.currentTime (sessionBudget inp) t r.uri)]
         else []) ∧
    (stopRecord inp).state = (if inp.writeOk (k + 1) then .idle else .error) ∧
    (stopRecord inp).lastCheckInAfter =
      (if inp.writeOk (k + 1) then some inp.currentTime else inp.lastCheckInTime) := by
  have hrw := runWrites_fail inp.writeOk inp.currentTime
    (acts.map (activityEntryInput inp.currentTime t r.uri)) k 0 []
    (by simpa using hk)
    (fun j hj => by simpa using hpre j hj)
    (by simpa using hfail)
  by_cases hnext : inp.writeOk (k + 1) = true
  · simp only [stopRecord, hr, ht, hc]
    rw [hrw]
    simp [hnext, List.map_take, List.map_map, Function.comp_def]
  · simp only [stopRecord, hr, ht, hc]
    rw [hrw]
    simp [hnext, List.map_take, List.map_map, Function.comp_def]

/-- Witness for C4: the two-activity session whose second write fails,
instantiating the amended theorem at `k = 1`. -/
theorem claim4_witness :
    (1 < claim4Acts.length ∧
      (∀ j, j < 1 → claim4FailSecond.writeOk j = true) ∧
      claim4FailSecond.writeOk 1 = false) ∧
    ((stopRecord claim4FailSecond).entries =
      (claim4Acts.take 1).map (fun a => createEntry claim4FailSecond.currentTime
        (activityEntryInput claim4FailSecond.currentTime claim4Transcript
          (RecordingResult.mk "recordings/recording_e.wav" 22).uri a)) ++
        (if claim4FailSecond.writeOk (1 + 1) then
          [createEntry claim4FailSecond.currentTime
            (fallbackEntryInput claim4FailSecond.currentTime
              (sessionBudget claim4FailSecond) claim4Transcript
              (RecordingResult.mk "recordings/recording_e.wav" 22).uri)]
         else []) ∧
     (stopRecord claim4FailSecond).state =
       (if claim4FailSecond.writeOk (1 + 1) then .idle else .error) ∧
     (stopRecord claim4FailSecond).lastCheckInAfter =
       (if claim4FailSecond.writeOk (1 + 1) then some claim4FailSecond.currentTime
        else claim4FailSecond.lastCheckInTime)) :=
  ⟨⟨by decide, by decide, by decide⟩,
    claim4_theorem claim4FailSecond ⟨"recordings/recording_e.wav", 22⟩
      claim4Transcript claim4Acts true 1 rfl rfl rfl (by decide) (by decide) (by decide)⟩

/-! ## Claim C8 — no negative persisted durations -/

lemma sanitizeParsed_duration_nonneg (p : ParsedResult) (ids : List String) (dflt : Int)
    (hdflt : 0 ≤ dflt)
    (hraw : ∀ a ∈ rawActivities (.ok p), ∀ d, a.duration = some d → 0 ≤ d) :
    ∀ act ∈ sanitizeParsed p ids dflt, 0 ≤ act.duration := by
  intro act hact
  cases p with
  | activitiesArr l =>
    rcases List.mem_map.mp (by simpa [sanitizeParsed] using hact) with ⟨a, ha, rfl⟩
    exact sanitizeActivity_duration_nonneg ids a
      (fun d hd => hraw a (by simpa [rawActivities] using ha) d hd)
  | single a =>
    have hact2 : act = sanitizeSingle ids dflt a := by
      simpa [sanitizeParsed] using hact
    subst hact2
    exact sanitizeSingle_duration_nonneg ids dflt a hdflt
      (fun d hd => hraw a (by simp [rawActivities]) d hd)

lemma successLoop_duration_nonneg (w : Nat → Bool) (ct : Nat) (t uri : String)
    (acts : List CategorizedActivity) (hacts : ∀ a ∈ acts, 0 ≤ a.duration)
    (e : TimeEntry) (written : List TimeEntry) (next : Nat) (b : Bool)
    (hrw : runWrites w ct (acts.map (activityEntryInput ct t uri)) 0 [] = (written, next, b))
    (he : e ∈ written) : 0 ≤ e.duration := by
  have hmem := runWrites_mem w ct (acts.map (activityEntryInput ct t uri)) 0 [] e
    (by rw [hrw]; exact he)
  rcases hmem with h | ⟨input, hin, rfl⟩
  · simp at h
  · rcases List.mem_map.mp hin with ⟨a, ha, rfl⟩
    simpa [createEntry, activityEntryInput] using hacts a ha

/-- Claim C8 as amended: every entry persisted by `stopRecord` has a
nonnegative duration PROVIDED every numeric duration in the model response
is nonnegative.  The orchestrator's own budgets are natural numbers and a
missing/non-numeric model duration is coerced to `0` (array branch) or to
the nonnegative budget (single-object branch), but a negative NUMERIC model
duration passes the typeof-number check and `input.duration || 0` unchanged,
so the hypothesis cannot be dropped. -/
theorem claim8_theorem (inp : StopInputs)
    (hraw : ∀ a ∈ rawActivities inp.modelResponse, ∀ d, a.duration = some d → 0 ≤ d) :
    ∀ e ∈ (stopRecord inp).entries, 0 ≤ e.duration := by
  intro e he
  rcases inp with ⟨rr, ct, lc, ni, tr, ak, cats, mr, w⟩
  cases rr with
  | none => simp [stopRecord] at he
  | some r =>
    cases tr with
    | error m =>
      by_cases hw : w 0 = true
      · simp [stopRecord, hw] at he
        subst he
        simp [createEntry, noTranscriptEntryInput]
      · simp [stopRecord, hw] at he
    | ok t =>
      cases ak with
      | none =>
        by_cases hw : w 0 = true
        · simp [stopRecord, categorizeTranscript, hw] at he
          subst he
          simp [createEntry, fallbackEntryInput]
        · simp [stopRecord, categorizeTranscript, hw] at he
      | some key =>
        by_cases htr : jsTrim t = ""
        · simp only [stopRecord, categorizeTranscript, htr, if_true, reduceIte] at he
          rcases hrw : runWrites w ct
              ([noSpeechActivity].map (activityEntryInput ct t r.uri)) 0 [] with
            ⟨written, next, b⟩
          rw [hrw] at he
          cases b with
          | true =>
            simp only at he
            exact successLoop_duration_nonneg w ct t r.uri [noSpeechActivity]
              (by simp [noSpeechActivity]) e written next true hrw he
          | false =>
            by_cases hnext : w next = true
            · simp only [hnext, if_true, reduceIte, List.mem_append,
                List.mem_singleton] at he
              rcases he with he | he
              · exact successLoop_duration_nonneg w ct t r.uri [noSpeechActivity]
                  (by simp [noSpeechActivity]) e written next false hrw he
              · subst he
                simp [createEntry, fallbackEntryInput]
            · simp only [hnext, if_false, Bool.false_eq_true, reduceIte] at he
              exact successLoop_duration_nonneg w ct t r.uri [noSpeechActivity]
                (by simp [noSpeechActivity]) e written next false hrw he
        · cases mr with
          | error msg =>
            by_cases hw : w 0 = true
            · simp [stopRecord, categorizeTranscript, htr, hw] at he
              subst he
              simp [createEntry, fallbackEntryInput]
            · simp [stopRecord, categorizeTranscript, htr, hw] at he
          | ok parsed =>
            have hacts : ∀ a ∈ sanitizeParsed parsed (cats.map (·.id))
                ((sessionBudget ⟨some r, ct, lc, ni, .ok t, some key, cats, .ok parsed, w⟩ : Nat) : Int),
                0 ≤ a.duration :=
              sanitizeParsed_duration_nonneg parsed (cats.map (·.id)) _
                (by positivity) (by simpa [rawActivities] using hraw)
            simp only [stopRecord, categorizeTranscript, htr, if_false, reduceIte] at he
            rcases hrw : runWrites w ct
                ((sanitizeParsed parsed (cats.map (·.id))
                  ((sessionBudget ⟨some r, ct, lc, ni, .ok t, some key, cats, .ok parsed, w⟩ : Nat) : Int)).map
                    (activityEntryInput ct t r.uri)) 0 [] with
              ⟨written, next, b⟩
            rw [hrw] at he
            cases b with
            | true =>
              simp only at he
              exact successLoop_duration_nonneg w ct t r.uri _ hacts e written next true hrw he
            | false =>
              by_cases hnext : w next = true
              · simp only [hnext, if_true, reduceIte, List.mem_append,
                  List.mem_singleton] at he
                rcases he with he | he
                · exact successLoop_duration_nonneg w ct t r.uri _ hacts e written next false hrw he
                · subst he
                  simp [createEntry, fallbackEntryInput]
              · simp only [hnext, if_false, Bool.false_eq_true, reduceIte] at he
                exact successLoop_duration_nonneg w ct t r.uri _ hacts e written next false hrw he

/-- A session whose model response contains a NUMERIC but negative duration. -/
def claim8Inputs : StopInputs :=
  { recResult := some ⟨"recordings/recording_d.wav", 12⟩
    currentTime := 1000
    lastCheckInTime := some 700
    notificationInterval := 30
    transcription := .ok "fixed the rewind bug"
    apiKey := some "key"
    categories := [⟨"work", "Work"⟩, ⟨"other", "Other"⟩]
    modelResponse := .ok (.activitiesArr
      [⟨some "Debugging", some "work", some ["debugging"], some (-5)⟩])
    writeOk := fun _ => true }

/-- Claim C8, counterexample to the claim as stated: a model-returned
numeric duration of `-5` survives the typeof-number check and
`input.duration || 0` unchanged, so entry creation persists a NEGATIVE
duration. -/
theorem claim8_counterexample :
    (stopRecord claim8Inputs).entries.map (fun e => e.duration) = [(-5 : Int)] ∧
    ¬ (0 : Int) ≤ (-5 : Int) :=
  ⟨rfl, by decide⟩

/-- A session whose model response only carries nonnegative numeric
durations, for the C8 witness. -/
def claim8WitnessInputs : StopInputs :=
  { recResult := some ⟨"recordings/recording_g.wav", 12⟩
    currentTime := 1000
    lastCheckInTime := some 700
    notificationInterval := 30
    transcription := .ok "reviewed the quarterly report"
    apiKey := some "key"
    categories := [⟨"work", "Work"⟩, ⟨"other", "Other"⟩]
    modelResponse := .ok (.activitiesArr
      [⟨some "Report review", some "work", some ["review"], some 7⟩])
    writeOk := fun _ => true }

/-- Witness for C8 at a session whose only model duration is `7 ≥ 0`. -/
theorem claim8_witness :
    (∀ a ∈ rawActivities claim8WitnessInputs.modelResponse,
      ∀ d, a.duration = some d → 0 ≤ d) ∧
    (∀ e ∈ (stopRecord claim8WitnessInputs).entries, 0 ≤ e.duration) := by
  have hraw : ∀ a ∈ rawActivities claim8WitnessInputs.modelResponse,
      ∀ d, a.duration = some d → 0 ≤ d := by
    intro a ha d hd
    have ha2 : a = ⟨some "Report review", some "work", some ["review"], some 7⟩ := by
      simpa [claim8WitnessInputs, rawActivities] using ha
    subst ha2
    have hd2 : d = 7 := by simpa using hd.symm
    subst hd2
    decide
  exact ⟨hraw, claim8_theorem claim8WitnessInputs hraw⟩
